import Mathlib

/-!
Verification of the Kenya car import cost calculator
(`src/car_import_calculator.py`) against its natural-language
specification.

The Python source works with Python floats and pandas dataframes.  The
embedding below represents every monetary quantity and rate as an exact
rational number (`ℚ`): the source applies no rounding between steps, and
every rate literal in the source (`0.25`, `0.16`, `0.0225`, `0.02`,
`0.20`, `0.30`, `0.35`) is a decimal literal, so the rational semantics
is the intended exact arithmetic of the calculation chain.  Vehicle age
is an integer (`ℤ`), computed in the source as
`datetime.now().year - year`.

Dataframes are modelled at the level the functions under scrutiny use
them: `load_crsp_file` only transforms the column-header list, so it is
embedded as a function on the list of header strings; `search_crsp` only
reads the `MAKE` and `MODEL` cells of each row, so rows are embedded as
the pair of those two (possibly missing, i.e. NaN) cells.
-/

/-! ## Python string membership (substring containment)

`pyIn needle hay` embeds Python's `needle in hay` on strings: true iff
`needle` occurs as a contiguous substring of `hay`. -/

/-- Does the pattern occur at the very start of the text (literal character
comparison)? -/
def litHere : List Char → List Char → Bool
  | [], _ => true
  | _ :: _, [] => false
  | p :: ps, c :: cs => decide (p = c) && litHere ps cs

/-- Does the pattern occur at some position of the text? -/
def pyInAux (pat : List Char) : List Char → Bool
  | [] => litHere pat []
  | c :: cs => litHere pat (c :: cs) || pyInAux pat cs

/-- Python's `needle in hay` substring test on strings. -/
def pyIn (needle hay : String) : Bool :=
  pyInAux needle.data hay.data

/-- Python's `str.upper()` (basic-latin case mapping, as `Char.toUpper`
provides; the data this program handles is ASCII). -/
def pyUpper (s : String) : String :=
  String.mk (s.data.map Char.toUpper)

/-- Python's `str.strip()`: remove leading and trailing whitespace. -/
def pyStrip (s : String) : String :=
  String.mk (((s.data.dropWhile Char.isWhitespace).reverse.dropWhile
    Char.isWhitespace).reverse)

/-! ## pandas `Series.str.contains` (regex search)

`Series.str.contains(pat)` defaults to `regex=True`: the pattern is a
Python regular expression searched with `re.search`, not a literal
substring.  The queries reaching it in this program are free-text user
input.  `reSearchAux` embeds `re.search` for the fragment of patterns
actually expressible without escapes that differ from literal text in a
way the theorems touch: literal characters plus the `.` wildcard (which
matches any character except a newline).  Every theorem below applies it
either to a concrete pattern inside this fragment or under the
hypothesis that the pattern contains no regex metacharacter at all, in
which case it coincides with literal substring search. -/

/-- Does the regex pattern (literal characters and the `.` wildcard)
match a prefix of the text, in the sense of `re.search` anchored here? -/
def reMatchHere : List Char → List Char → Bool
  | [], _ => true
  | _ :: _, [] => false
  | p :: ps, c :: cs =>
      (if p = '.' then decide (c ≠ '\n') else decide (p = c)) && reMatchHere ps cs

/-- Does the regex pattern match at some position of the text
(`re.search` semantics for the literal-plus-dot fragment)? -/
def reSearchAux (pat : List Char) : List Char → Bool
  | [] => reMatchHere pat []
  | c :: cs => reMatchHere pat (c :: cs) || reSearchAux pat cs

/-- pandas `hay_series.str.contains(pat)` on one cell value `hay`,
for patterns in the literal-plus-dot regex fragment. -/
def pdStrContains (pat hay : String) : Bool :=
  reSearchAux pat.data hay.data

/-- The characters that are metacharacters of Python regular
expressions.  A pattern containing none of them is matched by
`re.search` exactly as a literal substring. -/
def isRegexMeta (c : Char) : Bool :=
  decide (c = '.') || decide (c = '^') || decide (c = '$') || decide (c = '*') ||
  decide (c = '+') || decide (c = '?') || decide (c = '\x7b') || decide (c = '\x7d') ||
  decide (c = '[') || decide (c = ']') || decide (c = '\\') || decide (c = '|') ||
  decide (c = '(') || decide (c = ')')

/-! ## The duty stack (`calculate_customs_duty` … `calculate_total_costs`) -/

/-- Embeds `calculate_customs_duty(cif_value, vehicle_age)`: returns the
duty amount together with an optional warning string (Python returns a
pair `(duty, warning)` with `warning = None` on success). -/
def calculate_customs_duty (cif_value : ℚ) (vehicle_age : ℤ) : ℚ × Option String :=
  if vehicle_age > 8 then
    (0, some " Vehicles over 8 years old cannot be imported into Kenya")
  else if vehicle_age ≤ 7 then
    (cif_value * (25 / 100), none)
  else
    (0, some " Only vehicles 3 years old or newer can be imported")

/-- Embeds `calculate_excise_duty(cif_value, engine_size)`: returns the
duty amount and the rate expressed as a percentage. -/
def calculate_excise_duty (cif_value engine_size : ℚ) : ℚ × ℚ :=
  let rate : ℚ :=
    if engine_size ≤ 15 / 10 then 20 / 100
    else if engine_size ≤ 20 / 10 then 25 / 100
    else if engine_size ≤ 25 / 10 then 30 / 100
    else 35 / 100
  (cif_value * rate, rate * 100)

/-- Embeds `calculate_vat(cif_value, customs_duty, excise_duty)`:
16% of (CIF + customs duty + excise duty). -/
def calculate_vat (cif_value customs_duty excise_duty : ℚ) : ℚ :=
  (cif_value + customs_duty + excise_duty) * (16 / 100)

/-- Embeds `calculate_idf(cif_value, customs_duty)`:
2.25% of (CIF + customs duty). -/
def calculate_idf (cif_value customs_duty : ℚ) : ℚ :=
  (cif_value + customs_duty) * (225 / 10000)

/-- Embeds `calculate_rail_levy(cif_value)`: 2% of CIF. -/
def calculate_rail_levy (cif_value : ℚ) : ℚ :=
  cif_value * (2 / 100)

/-- The result dictionary built by `calculate_total_costs`, one field per
dictionary key, in the source's order. -/
structure CostBreakdown where
  fob_value : ℚ
  freight_cost : ℚ
  insurance_cost : ℚ
  cif_value : ℚ
  customs_duty : ℚ
  excise_duty : ℚ
  excise_rate : ℚ
  vat : ℚ
  idf : ℚ
  rail_levy : ℚ
  total_statutory_taxes : ℚ
  clearing_agent_fee : ℚ
  transport_to_nairobi : ℚ
  port_charges : ℚ
  inspection_fee : ℚ
  number_plate : ℚ
  total_other_fees : ℚ
  grand_total_kes : ℚ
  exchange_rate : ℚ
deriving DecidableEq, Repr

/-- Embeds `calculate_total_costs(fob_value, freight_cost,
insurance_cost, vehicle_age, engine_size)`.  The Python function returns
either `(costs_dict, None)` or `(None, warning)`; the embedding returns
the corresponding pair of options. -/
def calculate_total_costs (fob_value freight_cost insurance_cost : ℚ)
    (vehicle_age : ℤ) (engine_size : ℚ) : Option CostBreakdown × Option String :=
  let cif_value := fob_value + insurance_cost + freight_cost
  let cd := calculate_customs_duty cif_value vehicle_age
  match cd.2 with
  | some warning => (none, some warning)
  | none =>
    let customs_duty := cd.1
    let ed := calculate_excise_duty cif_value engine_size
    let excise_duty := ed.1
    let excise_rate := ed.2
    let vat := calculate_vat cif_value customs_duty excise_duty
    let idf := calculate_idf cif_value customs_duty
    let rail_levy := calculate_rail_levy cif_value
    let clearing_agent_fee : ℚ := 25000
    let transport_to_nairobi : ℚ := 15000
    let port_charges : ℚ := 10000
    let inspection_fee : ℚ := 8000
    let number_plate : ℚ := 3000
    let exchange_rate : ℚ := 129
    let total_statutory_taxes := customs_duty + excise_duty + vat + idf + rail_levy
    let total_other_fees := clearing_agent_fee + transport_to_nairobi +
      port_charges + inspection_fee + number_plate
    let grand_total_kes := cif_value * exchange_rate +
      total_statutory_taxes * exchange_rate + total_other_fees
    (some ⟨fob_value, freight_cost, insurance_cost, cif_value, customs_duty,
      excise_duty, excise_rate, vat, idf, rail_levy, total_statutory_taxes,
      clearing_agent_fee, transport_to_nairobi, port_charges, inspection_fee,
      number_plate, total_other_fees, grand_total_kes, exchange_rate⟩, none)

/-! ## The reference table (`load_crsp_file`, `search_crsp`)

`load_crsp_file` receives a dataframe and only transforms its column
labels (normalisation, presence check, rename); the row data passes
through untouched.  It is therefore embedded as a function from the list
of raw header strings to the (optional) list of resulting header
strings, `none` embedding the `st.error … ; return None` failure path.

`search_crsp` reads only the `MAKE` and `MODEL` cell of each row, so a
row is embedded as that pair of cells; a missing (NaN) cell is `none`,
which pandas treats as a non-match (`na=False`). -/

/-- One row of the loaded CRSP table, reduced to the two cells
`search_crsp` inspects.  `none` embeds a NaN cell. -/
structure CrspRow where
  make : Option String
  model : Option String
deriving DecidableEq, Repr

/-- One cell of `series.str.upper().str.contains(pat, na=False)`: a NaN
cell yields `False`, a string cell is upper-cased and regex-searched. -/
def cellContains (pat : String) (cell : Option String) : Bool :=
  match cell with
  | none => false
  | some s => pdStrContains pat (pyUpper s)

/-- Embeds `search_crsp(make, model, crsp_data)`: both queries are
upper-cased and stripped, then the table is filtered to the rows whose
upper-cased `MAKE` cell matches the make query and whose upper-cased
`MODEL` cell matches the model query (pandas boolean-mask filtering,
which keeps the original row order and imposes no limit). -/
def search_crsp (make model : String) (crsp_data : List CrspRow) : List CrspRow :=
  let mk := pyStrip (pyUpper make)
  let md := pyStrip (pyUpper model)
  crsp_data.filter (fun row => cellContains mk row.make && cellContains md row.model)

/-- Modelled from the spec (§4.2), for comparison with `search_crsp`:
a row matches when its cell contains the query as a literal substring
(`pyIn`), rather than as a regular expression. -/
def cellContainsSub (pat : String) (cell : Option String) : Bool :=
  match cell with
  | none => false
  | some s => pyIn pat (pyUpper s)

/-- Modelled from the spec (§4.2), for comparison with `search_crsp`:
substring-containment search over the table. -/
def search_crsp_spec (make model : String) (crsp_data : List CrspRow) : List CrspRow :=
  let mk := pyStrip (pyUpper make)
  let md := pyStrip (pyUpper model)
  crsp_data.filter (fun row => cellContainsSub mk row.make && cellContainsSub md row.model)

/-- Embeds `df.columns.str.replace('"', '')`: drop every `"` character. -/
def stripQuotes (s : String) : String :=
  String.mk (s.data.filter (fun c => decide (c ≠ '"')))

/-- Collapses every maximal run of whitespace characters to one space;
the accumulator records whether the previous character was whitespace. -/
def collapseWsAux : List Char → Bool → List Char
  | [], _ => []
  | c :: cs, prevWs =>
    if c.isWhitespace then
      if prevWs then collapseWsAux cs true else ' ' :: collapseWsAux cs true
    else c :: collapseWsAux cs false

/-- Embeds `.str.replace(r'\s+', ' ', regex=True)`. -/
def collapseWs (s : String) : String :=
  String.mk (collapseWsAux s.data false)

/-- Embeds the header-normalisation chain of `load_crsp_file`:
`.str.strip().str.replace('"', '').str.replace(r'\s+', ' ',
regex=True).str.upper()`. -/
def normalizeHeader (s : String) : String :=
  pyUpper (collapseWs (stripQuotes (pyStrip s)))

/-- Embeds the `column_mapping` / `df.rename` step of `load_crsp_file`
on one (already normalised) column label: a label exactly equal to
`MAKE` maps to `MAKE`; otherwise a label exactly equal to `MODEL` whose
text does not contain `NUMBER` maps to `MODEL`; every other label is
left unchanged. -/
def renameColumn (col : String) : String :=
  if pyUpper col = "MAKE" then "MAKE"
  else if pyUpper col = "MODEL" ∧ pyIn "NUMBER" (pyUpper col) = false then "MODEL"
  else col

/-- Embeds `load_crsp_file(df)` at the column-label level: normalise the
headers, require some header containing `MAKE` and some header
containing `MODEL` but not `NUMBER` (Python `in`, i.e. substring
containment), and on success return the headers after the rename step;
on failure (`st.error` and `return None`) return `none`. -/
def load_crsp_file (headers : List String) : Option (List String) :=
  let cols := headers.map normalizeHeader
  let has_make := cols.any (fun col => pyIn "MAKE" (pyUpper col))
  let has_model := cols.any (fun col =>
    pyIn "MODEL" (pyUpper col) && !(pyIn "NUMBER" (pyUpper col)))
  if has_make && has_model then some (cols.map renameColumn) else none

/-! ## Theorems -/

/-- C4: the customs-duty gate maps every age > 8 to rejection with the
maximum-importable-age reason, every age ≤ 7 to eligibility with duty
25% of CIF, and age exactly 8 to rejection with the second,
general-age-limit reason (so age 9 is rejected and age 0 is eligible,
as the witness instantiates). -/
theorem customs_duty_age_gate (cif_value : ℚ) (vehicle_age : ℤ) :
    (vehicle_age > 8 → calculate_customs_duty cif_value vehicle_age =
      (0, some " Vehicles over 8 years old cannot be imported into Kenya")) ∧
    (vehicle_age ≤ 7 → calculate_customs_duty cif_value vehicle_age =
      (cif_value * (25 / 100), none)) ∧
    (vehicle_age = 8 → calculate_customs_duty cif_value vehicle_age =
      (0, some " Only vehicles 3 years old or newer can be imported")) := by
  unfold calculate_customs_duty
  refine ⟨fun h => ?_, fun h => ?_, fun h => ?_⟩
  · rw [if_pos h]
  · rw [if_neg (by omega : ¬ vehicle_age > 8), if_pos h]
  · subst h
    norm_num

/-- Witness for `customs_duty_age_gate` at ages 9, 0 and 8 with CIF 100. -/
theorem customs_duty_age_gate_witness :
    calculate_customs_duty 100 9 =
      (0, some " Vehicles over 8 years old cannot be imported into Kenya") ∧
    calculate_customs_duty 100 0 = (100 * (25 / 100), none) ∧
    calculate_customs_duty 100 8 =
      (0, some " Only vehicles 3 years old or newer can be imported") :=
  ⟨(customs_duty_age_gate 100 9).1 (by norm_num),
   (customs_duty_age_gate 100 0).2.1 (by norm_num),
   (customs_duty_age_gate 100 8).2.2 rfl⟩

/-- C5: for every CIF > 0 and engine size in [0.5, 6.0], the ratio
ExciseDuty/CIF is one of 20%, 25%, 30%, 35%, is non-decreasing in the
engine size, and the tier boundaries 1.5, 2.0, 2.5 resolve to the
lower-rate tier inclusively (rate 20%, 25%, 30% respectively). -/
theorem excise_duty_tier_properties (cif_value e e' : ℚ) (hcif : 0 < cif_value)
    (hlo : 1 / 2 ≤ e) (hhi : e ≤ 6) (hmono : e ≤ e') :
    ((calculate_excise_duty cif_value e).1 / cif_value = 20 / 100 ∨
     (calculate_excise_duty cif_value e).1 / cif_value = 25 / 100 ∨
     (calculate_excise_duty cif_value e).1 / cif_value = 30 / 100 ∨
     (calculate_excise_duty cif_value e).1 / cif_value = 35 / 100) ∧
    (calculate_excise_duty cif_value e).1 / cif_value ≤
      (calculate_excise_duty cif_value e').1 / cif_value ∧
    (calculate_excise_duty cif_value (15 / 10)).1 / cif_value = 20 / 100 ∧
    (calculate_excise_duty cif_value (20 / 10)).1 / cif_value = 25 / 100 ∧
    (calculate_excise_duty cif_value (25 / 10)).1 / cif_value = 30 / 100 := by
  have hrate : ∀ x : ℚ, (calculate_excise_duty cif_value x).1 / cif_value =
      (if x ≤ 15 / 10 then (20 : ℚ) / 100 else if x ≤ 20 / 10 then 25 / 100
       else if x ≤ 25 / 10 then 30 / 100 else 35 / 100) := by
    intro x
    simp only [calculate_excise_duty]
    exact mul_div_cancel_left₀ _ (ne_of_gt hcif)
  refine ⟨?_, ?_, ?_, ?_, ?_⟩
  · rw [hrate]
    split_ifs <;> tauto
  · rw [hrate, hrate]
    split_ifs <;> linarith
  · rw [hrate]
    norm_num
  · rw [hrate]
    norm_num
  · rw [hrate]
    norm_num

/-- Witness for `excise_duty_tier_properties` at CIF 100, engine sizes 1
and 3. -/
theorem excise_duty_tier_properties_witness :
    ((calculate_excise_duty 100 1).1 / 100 = 20 / 100 ∨
     (calculate_excise_duty 100 1).1 / 100 = 25 / 100 ∨
     (calculate_excise_duty 100 1).1 / 100 = 30 / 100 ∨
     (calculate_excise_duty 100 1).1 / 100 = 35 / 100) ∧
    (calculate_excise_duty 100 1).1 / 100 ≤ (calculate_excise_duty 100 3).1 / 100 ∧
    (calculate_excise_duty 100 (15 / 10)).1 / 100 = 20 / 100 ∧
    (calculate_excise_duty 100 (20 / 10)).1 / 100 = 25 / 100 ∧
    (calculate_excise_duty 100 (25 / 10)).1 / 100 = 30 / 100 :=
  excise_duty_tier_properties 100 1 3 (by norm_num) (by norm_num) (by norm_num)
    (by norm_num)

/-- C1 counterexample: at FOB 15000, freight 1200, insurance 300, age 4,
engine 2.0 L the computed VAT is 0.16 × (16500 + 4125 + 4125) = 3960,
not the 3798.00 the claim states. -/
theorem end_to_end_vat_counterexample :
    ((calculate_total_costs 15000 1200 300 4 2).1.map (fun b => b.vat)) = some 3960 ∧
    (3960 : ℚ) ≠ 3798 := by
  constructor
  · norm_num [calculate_total_costs, calculate_customs_duty, calculate_excise_duty,
      calculate_vat, calculate_idf, calculate_rail_levy]
  · norm_num

/-- C1 amended: for the input FOB 15000, freight 1200, insurance 300,
engine 2.0 L, age 4, the breakdown has CIF 16500, customs duty 4125,
excise duty 4125 (25% tier), VAT 3960, declaration fee 464.0625
(= 7425/16), rail levy 330, and total statutory taxes 13004.0625
(= 208065/16). -/
theorem end_to_end_example :
    ((calculate_total_costs 15000 1200 300 4 2).1.map (fun b =>
      (b.cif_value, b.customs_duty, b.excise_duty, b.excise_rate, b.vat, b.idf,
       b.rail_levy, b.total_statutory_taxes))) =
    some (16500, 4125, 4125, 25, 3960, 7425 / 16, 330, 208065 / 16) := by
  norm_num [calculate_total_costs, calculate_customs_duty, calculate_excise_duty,
    calculate_vat, calculate_idf, calculate_rail_levy]

/-- Helper: on an eligible age (age ≤ 7) `calculate_total_costs` returns
the fully populated breakdown and no warning; every field is spelled out
in terms of the CIF value `fob + ins + freight`. -/
theorem calculate_total_costs_eligible (fob freight ins : ℚ) (age : ℤ) (e : ℚ)
    (h : age ≤ 7) :
    calculate_total_costs fob freight ins age e =
      (some ⟨fob, freight, ins, fob + ins + freight,
        (fob + ins + freight) * (25 / 100),
        (calculate_excise_duty (fob + ins + freight) e).1,
        (calculate_excise_duty (fob + ins + freight) e).2,
        calculate_vat (fob + ins + freight) ((fob + ins + freight) * (25 / 100))
          ((calculate_excise_duty (fob + ins + freight) e).1),
        calculate_idf (fob + ins + freight) ((fob + ins + freight) * (25 / 100)),
        calculate_rail_levy (fob + ins + freight),
        (fob + ins + freight) * (25 / 100) +
          (calculate_excise_duty (fob + ins + freight) e).1 +
          calculate_vat (fob + ins + freight) ((fob + ins + freight) * (25 / 100))
            ((calculate_excise_duty (fob + ins + freight) e).1) +
          calculate_idf (fob + ins + freight) ((fob + ins + freight) * (25 / 100)) +
          calculate_rail_levy (fob + ins + freight),
        25000, 15000, 10000, 8000, 3000, 25000 + 15000 + 10000 + 8000 + 3000,
        (fob + ins + freight) * 129 +
          ((fob + ins + freight) * (25 / 100) +
            (calculate_excise_duty (fob + ins + freight) e).1 +
            calculate_vat (fob + ins + freight) ((fob + ins + freight) * (25 / 100))
              ((calculate_excise_duty (fob + ins + freight) e).1) +
            calculate_idf (fob + ins + freight) ((fob + ins + freight) * (25 / 100)) +
            calculate_rail_levy (fob + ins + freight)) * 129 +
          (25000 + 15000 + 10000 + 8000 + 3000),
        129⟩, none) := by
  simp only [calculate_total_costs, calculate_customs_duty,
    if_neg (by omega : ¬ age > 8), if_pos h]

/-- Helper: on an ineligible age (age ≥ 8) `calculate_total_costs`
returns no breakdown and the age-appropriate warning string. -/
theorem calculate_total_costs_rejected (fob freight ins : ℚ) (age : ℤ) (e : ℚ)
    (h : 8 ≤ age) :
    calculate_total_costs fob freight ins age e =
      (none, some (if age > 8 then " Vehicles over 8 years old cannot be imported into Kenya"
                   else " Only vehicles 3 years old or newer can be imported")) := by
  by_cases h8 : age > 8
  · simp only [calculate_total_costs, calculate_customs_duty, if_pos h8]
  · simp only [calculate_total_costs, calculate_customs_duty, if_neg h8,
      if_neg (by omega : ¬ age ≤ 7)]

/-- The breakdown computed for FOB 15000, freight 1200, insurance 300,
age 4, engine 2.0 L (used by witnesses). -/
def exampleBreakdown : CostBreakdown :=
  ⟨15000, 1200, 300, 16500, 4125, 4125, 25, 3960, 7425 / 16, 330, 208065 / 16,
   25000, 15000, 10000, 8000, 3000, 61000, 61872385 / 16, 129⟩

/-- The breakdown computed for FOB 16000, freight 1200, insurance 300,
age 4, engine 2.0 L (used by witnesses). -/
def exampleBreakdown2 : CostBreakdown :=
  ⟨16000, 1200, 300, 17500, 4375, 4375, 25, 4200, 7875 / 16, 350, 220675 / 16,
   25000, 15000, 10000, 8000, 3000, 61000, 65563075 / 16, 129⟩

/-- Helper: the concrete run at FOB 15000 produces `exampleBreakdown`. -/
theorem calculate_total_costs_example :
    calculate_total_costs 15000 1200 300 4 2 = (some exampleBreakdown, none) := by
  rw [calculate_total_costs_eligible 15000 1200 300 4 2 (by norm_num)]
  norm_num [exampleBreakdown, calculate_excise_duty, calculate_vat, calculate_idf,
    calculate_rail_levy]

/-- Helper: the concrete run at FOB 16000 produces `exampleBreakdown2`. -/
theorem calculate_total_costs_example2 :
    calculate_total_costs 16000 1200 300 4 2 = (some exampleBreakdown2, none) := by
  rw [calculate_total_costs_eligible 16000 1200 300 4 2 (by norm_num)]
  norm_num [exampleBreakdown2, calculate_excise_duty, calculate_vat, calculate_idf,
    calculate_rail_levy]

/-- C2 counterexample: at FOB 0, freight 0, insurance 0, age −1 and
engine 0 — non-positive monetary values, non-positive displacement and a
negative age — `calculate_total_costs` still returns a full breakdown
and no error outcome, so it does not refuse to proceed. -/
theorem no_input_validation_counterexample :
    ((calculate_total_costs 0 0 0 (-1) 0).1).isSome = true ∧
    (calculate_total_costs 0 0 0 (-1) 0).2 = none := by
  rw [calculate_total_costs_eligible 0 0 0 (-1) 0 (by norm_num)]
  exact ⟨rfl, rfl⟩

/-- C2 amended: `calculate_total_costs` performs no input validation at
all — for every age ≤ 7 (including negative ages) and arbitrary
monetary values and engine displacement (including non-positive ones) it
returns a full cost breakdown and no error outcome; nothing is refused
or clamped. -/
theorem no_input_validation (fob freight ins : ℚ) (age : ℤ) (e : ℚ) (h : age ≤ 7) :
    ((calculate_total_costs fob freight ins age e).1).isSome = true ∧
    (calculate_total_costs fob freight ins age e).2 = none := by
  rw [calculate_total_costs_eligible fob freight ins age e h]
  exact ⟨rfl, rfl⟩

/-- Witness for `no_input_validation` at FOB 0, freight −1, insurance 0,
age −3, engine 0. -/
theorem no_input_validation_witness :
    ((calculate_total_costs 0 (-1) 0 (-3) 0).1).isSome = true ∧
    (calculate_total_costs 0 (-1) 0 (-3) 0).2 = none :=
  no_input_validation 0 (-1) 0 (-3) 0 (by norm_num)

/-- C6: every breakdown returned by `calculate_total_costs` satisfies
TotalStatutoryTaxes = CustomsDuty + ExciseDuty + VAT + DeclarationFee +
RailLevy exactly, and GrandTotal = (CIF + TotalStatutoryTaxes) ×
exchangeRate + TotalOtherFees, where the exchange rate is the constant
129 and TotalOtherFees is the unconverted sum of the five flat KES fees
25000 + 15000 + 10000 + 8000 + 3000. -/
theorem breakdown_totals (fob freight ins : ℚ) (age : ℤ) (e : ℚ) (b : CostBreakdown)
    (h : (calculate_total_costs fob freight ins age e).1 = some b) :
    b.total_statutory_taxes =
      b.customs_duty + b.excise_duty + b.vat + b.idf + b.rail_levy ∧
    b.grand_total_kes =
      (b.cif_value + b.total_statutory_taxes) * b.exchange_rate + b.total_other_fees ∧
    b.exchange_rate = 129 ∧
    b.total_other_fees = 25000 + 15000 + 10000 + 8000 + 3000 := by
  rcases le_or_lt age 7 with h7 | h7
  · rw [calculate_total_costs_eligible fob freight ins age e h7] at h
    simp only [Option.some.injEq] at h
    subst h
    refine ⟨rfl, by ring, rfl, rfl⟩
  · rw [calculate_total_costs_rejected fob freight ins age e (by omega)] at h
    simp at h

/-- Witness for `breakdown_totals` at the FOB 15000 example run. -/
theorem breakdown_totals_witness :
    exampleBreakdown.total_statutory_taxes =
      exampleBreakdown.customs_duty + exampleBreakdown.excise_duty +
      exampleBreakdown.vat + exampleBreakdown.idf + exampleBreakdown.rail_levy ∧
    exampleBreakdown.grand_total_kes =
      (exampleBreakdown.cif_value + exampleBreakdown.total_statutory_taxes) *
        exampleBreakdown.exchange_rate + exampleBreakdown.total_other_fees ∧
    exampleBreakdown.exchange_rate = 129 ∧
    exampleBreakdown.total_other_fees = 25000 + 15000 + 10000 + 8000 + 3000 :=
  breakdown_totals 15000 1200 300 4 2 exampleBreakdown
    (by rw [calculate_total_costs_example])

/-- C7: whenever the age makes the vehicle ineligible (age ≥ 8),
`calculate_total_costs` returns no breakdown at all — only the rejection
reason — and in general a breakdown and a warning are never both
returned. -/
theorem rejection_yields_no_breakdown (fob freight ins : ℚ) (age : ℤ) (e : ℚ) :
    (8 ≤ age → (calculate_total_costs fob freight ins age e).1 = none ∧
      ((calculate_total_costs fob freight ins age e).2).isSome = true) ∧
    (((calculate_total_costs fob freight ins age e).1).isSome = true →
      (calculate_total_costs fob freight ins age e).2 = none) := by
  constructor
  · intro h
    rw [calculate_total_costs_rejected fob freight ins age e h]
    exact ⟨rfl, rfl⟩
  · intro h
    rcases le_or_lt age 7 with h7 | h7
    · rw [calculate_total_costs_eligible fob freight ins age e h7]
    · rw [calculate_total_costs_rejected fob freight ins age e (by omega)] at h
      simp at h

/-- Witness for `rejection_yields_no_breakdown` at age 9. -/
theorem rejection_yields_no_breakdown_witness :
    (calculate_total_costs 1 1 1 9 1).1 = none ∧
    ((calculate_total_costs 1 1 1 9 1).2).isSome = true :=
  (rejection_yields_no_breakdown 1 1 1 9 1).1 (by norm_num)

/-- C9: for fixed freight, insurance, age and engine size, whenever two
FOB values both yield a breakdown (the vehicle is eligible), the larger
FOB yields the strictly larger grand total. -/
theorem grand_total_monotone_in_fob (fob1 fob2 freight ins : ℚ) (age : ℤ) (e : ℚ)
    (b1 b2 : CostBreakdown)
    (h1 : (calculate_total_costs fob1 freight ins age e).1 = some b1)
    (h2 : (calculate_total_costs fob2 freight ins age e).1 = some b2)
    (hlt : fob1 < fob2) :
    b1.grand_total_kes < b2.grand_total_kes := by
  rcases le_or_lt age 7 with h7 | h7
  · rw [calculate_total_costs_eligible fob1 freight ins age e h7] at h1
    rw [calculate_total_costs_eligible fob2 freight ins age e h7] at h2
    simp only [Option.some.injEq] at h1 h2
    subst h1
    subst h2
    simp only [calculate_excise_duty, calculate_vat, calculate_idf, calculate_rail_levy]
    split_ifs <;> nlinarith
  · rw [calculate_total_costs_rejected fob1 freight ins age e (by omega)] at h1
    simp at h1

/-- Witness for `grand_total_monotone_in_fob` at FOB 15000 versus 16000
(freight 1200, insurance 300, age 4, engine 2.0 L). -/
theorem grand_total_monotone_in_fob_witness :
    exampleBreakdown.grand_total_kes < exampleBreakdown2.grand_total_kes :=
  grand_total_monotone_in_fob 15000 16000 1200 300 4 2 exampleBreakdown exampleBreakdown2
    (by rw [calculate_total_costs_example]) (by rw [calculate_total_costs_example2])
    (by norm_num)

/-- Helper: the rename step maps a column to the canonical `MAKE` label
exactly when its upper-casing is exactly `MAKE`. -/
theorem renameColumn_eq_make (c : String) :
    renameColumn c = "MAKE" ↔ pyUpper c = "MAKE" := by
  unfold renameColumn
  split_ifs with h1 h2
  · simp [h1]
  · constructor
    · intro hc
      exact absurd hc (by decide)
    · intro hc
      exact absurd (h2.1.symm.trans hc) (by decide)
  · constructor
    · intro hc
      subst hc
      exact absurd (by decide : pyUpper "MAKE" = "MAKE") h1
    · intro hc
      exact absurd hc h1

/-- Helper: the rename step maps a column to the canonical `MODEL` label
exactly when its upper-casing is exactly `MODEL`. -/
theorem renameColumn_eq_model (c : String) :
    renameColumn c = "MODEL" ↔ pyUpper c = "MODEL" := by
  unfold renameColumn
  split_ifs with h1 h2
  · constructor
    · intro hc
      exact absurd hc (by decide)
    · intro hc
      exact absurd (h1.symm.trans hc) (by decide)
  · simp [h2.1]
  · constructor
    · intro hc
      subst hc
      exact absurd (⟨by decide, by decide⟩ :
        pyUpper "MODEL" = "MODEL" ∧ pyIn "NUMBER" (pyUpper "MODEL") = false) h2
    · intro hc
      refine absurd ⟨hc, ?_⟩ h2
      rw [hc]
      decide

/-- C3 counterexample: with raw headers `["MAKE", "MODEL NAME"]` the
load succeeds (a make and a model column are identified), yet the
returned header list contains no canonical `MODEL` column — the
identified `MODEL NAME` header is not renamed; and with raw headers
`["CAR MAKE", "MODEL"]` the load also succeeds although no normalized
header is exactly equal to `MAKE`, so identification is by substring
containment, not exact equality. -/
theorem load_crsp_rename_counterexample :
    load_crsp_file ["MAKE", "MODEL NAME"] = some ["MAKE", "MODEL NAME"] ∧
    "MODEL" ∉ ["MAKE", "MODEL NAME"] ∧
    load_crsp_file ["CAR MAKE", "MODEL"] = some ["CAR MAKE", "MODEL"] := by
  refine ⟨by decide, by decide, by decide⟩

/-- C3 amended: `load_crsp_file` identifies a make column as any
normalized header containing the substring `MAKE`, and a model column
as any normalized header containing `MODEL` but not `NUMBER`; the load
succeeds exactly when both are identified.  The rename step maps to the
canonical names only headers whose upper-casing is exactly `MAKE`
(resp. exactly `MODEL`), so the returned table has a canonical `MAKE`
(resp. `MODEL`) column iff some normalized header upper-cases to
exactly that name — an identified-by-substring column is not renamed. -/
theorem load_crsp_file_amended (headers : List String) :
    ((load_crsp_file headers).isSome = true ↔
      ((headers.map normalizeHeader).any (fun col => pyIn "MAKE" (pyUpper col)) = true ∧
       (headers.map normalizeHeader).any (fun col =>
         pyIn "MODEL" (pyUpper col) && !(pyIn "NUMBER" (pyUpper col))) = true)) ∧
    (∀ out, load_crsp_file headers = some out →
      (("MAKE" ∈ out) ↔
        ∃ col ∈ headers.map normalizeHeader, pyUpper col = "MAKE") ∧
      (("MODEL" ∈ out) ↔
        ∃ col ∈ headers.map normalizeHeader, pyUpper col = "MODEL")) := by
  constructor
  · simp only [load_crsp_file]
    split_ifs with hcond
    · rw [Bool.and_eq_true] at hcond
      simp [hcond.1, hcond.2]
    · rw [Bool.and_eq_true] at hcond
      simp only [Option.isSome_none, Bool.false_eq_true, false_iff]
      intro hc
      exact hcond ⟨hc.1, hc.2⟩
  · intro out hout
    simp only [load_crsp_file] at hout
    split_ifs at hout with hcond
    · simp only [Option.some.injEq] at hout
      subst hout
      constructor
      · simp only [List.mem_map, renameColumn_eq_make]
      · simp only [List.mem_map, renameColumn_eq_model]

/-- Witness for `load_crsp_file_amended` on the headers
`["MAKE", "MODEL NAME"]`. -/
theorem load_crsp_file_amended_witness :
    (("MAKE" ∈ ["MAKE", "MODEL NAME"]) ↔
      ∃ col ∈ ["MAKE", "MODEL NAME"].map normalizeHeader, pyUpper col = "MAKE") ∧
    (("MODEL" ∈ ["MAKE", "MODEL NAME"]) ↔
      ∃ col ∈ ["MAKE", "MODEL NAME"].map normalizeHeader, pyUpper col = "MODEL") :=
  (load_crsp_file_amended ["MAKE", "MODEL NAME"]).2 ["MAKE", "MODEL NAME"] (by decide)

/-- Helper: on a pattern containing no `.`, the anchored regex match is
the literal prefix comparison. -/
theorem reMatchHere_no_dot (pat : List Char) (hp : '.' ∉ pat) :
    ∀ l, reMatchHere pat l = litHere pat l := by
  induction pat with
  | nil =>
    intro l
    cases l <;> rfl
  | cons p ps ih =>
    intro l
    have hp1 : ¬ (p = '.') := by
      intro hc
      subst hc
      exact hp (List.mem_cons_self _ _)
    have hp2 : '.' ∉ ps := fun hc => hp (List.mem_cons_of_mem p hc)
    cases l with
    | nil => rfl
    | cons c cs =>
      simp only [reMatchHere, litHere, if_neg hp1]
      rw [ih hp2 cs]

/-- Helper: on a pattern containing no `.`, `re.search` is literal
substring search. -/
theorem reSearchAux_no_dot (pat : List Char) (hp : '.' ∉ pat) :
    ∀ hay, reSearchAux pat hay = pyInAux pat hay := by
  intro hay
  induction hay with
  | nil => simp only [reSearchAux, pyInAux, reMatchHere_no_dot pat hp]
  | cons c cs ih => simp only [reSearchAux, pyInAux, reMatchHere_no_dot pat hp, ih]

/-- Helper: a metacharacter-free pattern contains no `.`. -/
theorem no_meta_no_dot (s : String) (h : s.data.all (fun c => !(isRegexMeta c)) = true) :
    '.' ∉ s.data := by
  intro hc
  rw [List.all_eq_true] at h
  exact absurd (h '.' hc) (by decide)

/-- Helper: on a metacharacter-free pattern, the pandas regex cell match
agrees with the substring cell match. -/
theorem cellContains_no_dot (pat : String) (hp : '.' ∉ pat.data) (cell : Option String) :
    cellContains pat cell = cellContainsSub pat cell := by
  cases cell with
  | none => rfl
  | some s =>
    simp only [cellContains, cellContainsSub, pdStrContains, pyIn,
      reSearchAux_no_dot pat.data hp]

/-- C8 counterexample: `search_crsp` passes the query to pandas
`str.contains`, which interprets it as a regular expression; the query
`"."` matches the row (TOYOTA, HARRIER) although `"."` is not a
substring of `"TOYOTA"` (the substring-containment search returns no
row). -/
theorem search_crsp_regex_counterexample :
    search_crsp "." "" [⟨some "TOYOTA", some "HARRIER"⟩] =
      [⟨some "TOYOTA", some "HARRIER"⟩] ∧
    search_crsp_spec "." "" [⟨some "TOYOTA", some "HARRIER"⟩] = [] ∧
    pyIn "." "TOYOTA" = false := by
  refine ⟨by decide, by decide, by decide⟩

/-- C8 amended: for queries whose upper-cased, stripped text contains no
regex metacharacter, `search_crsp` returns exactly the rows whose MAKE
cell contains the processed make query as a substring and whose MODEL
cell contains the processed model query as a substring, in the table's
original row order, with no result limit, and a row with a missing cell
never matches (this is `search_crsp_spec`, the substring semantics of
the spec); in particular, on the three-row example table the query
(TOY, HAR) returns exactly the Harrier row and (BMW, X5) returns the
empty list. -/
theorem search_crsp_substring_semantics (make model : String) (crsp_data : List CrspRow)
    (hm : (pyStrip (pyUpper make)).data.all (fun c => !(isRegexMeta c)) = true)
    (hd : (pyStrip (pyUpper model)).data.all (fun c => !(isRegexMeta c)) = true) :
    search_crsp make model crsp_data = search_crsp_spec make model crsp_data ∧
    search_crsp "TOY" "HAR"
      [⟨some "TOYOTA", some "HARRIER"⟩, ⟨some "TOYOTA", some "HILUX"⟩,
       ⟨some "NISSAN", some "XTRAIL"⟩] = [⟨some "TOYOTA", some "HARRIER"⟩] ∧
    search_crsp "BMW" "X5"
      [⟨some "TOYOTA", some "HARRIER"⟩, ⟨some "TOYOTA", some "HILUX"⟩,
       ⟨some "NISSAN", some "XTRAIL"⟩] = [] := by
  refine ⟨?_, by decide, by decide⟩
  simp only [search_crsp, search_crsp_spec]
  apply List.filter_congr
  intro row _
  rw [cellContains_no_dot _ (no_meta_no_dot _ hm), cellContains_no_dot _ (no_meta_no_dot _ hd)]

/-- Witness for `search_crsp_substring_semantics` at the queries TOY and
HAR over the three-row example table. -/
theorem search_crsp_substring_semantics_witness :
    search_crsp "TOY" "HAR"
      [⟨some "TOYOTA", some "HARRIER"⟩, ⟨some "TOYOTA", some "HILUX"⟩,
       ⟨some "NISSAN", some "XTRAIL"⟩] =
    search_crsp_spec "TOY" "HAR"
      [⟨some "TOYOTA", some "HARRIER"⟩, ⟨some "TOYOTA", some "HILUX"⟩,
       ⟨some "NISSAN", some "XTRAIL"⟩] :=
  (search_crsp_substring_semantics "TOY" "HAR"
    [⟨some "TOYOTA", some "HARRIER"⟩, ⟨some "TOYOTA", some "HILUX"⟩,
     ⟨some "NISSAN", some "XTRAIL"⟩] (by decide) (by decide)).1

/-- Helper: the empty regex pattern matches every text. -/
theorem reSearchAux_nil (hay : List Char) : reSearchAux [] hay = true := by
  cases hay <;> simp [reSearchAux, reMatchHere]

/-- Helper: the empty query matches exactly the present (non-NaN)
cells. -/
theorem cellContains_empty (cell : Option String) :
    cellContains "" cell = cell.isSome := by
  cases cell with
  | none => rfl
  | some s => simp [cellContains, pdStrContains, reSearchAux_nil]

/-- C10: with both query strings empty, `search_crsp` returns exactly
the rows of the table whose MAKE and MODEL cells are both present
(non-NaN), in table order — empty queries act as universal wildcards. -/
theorem search_crsp_empty_queries (crsp_data : List CrspRow) :
    search_crsp "" "" crsp_data =
      crsp_data.filter (fun row => row.make.isSome && row.model.isSome) := by
  simp only [search_crsp]
  apply List.filter_congr
  intro row _
  have he : pyStrip (pyUpper "") = "" := rfl
  rw [he, cellContains_empty, cellContains_empty]
